import Mathlib

/-!
Verification of the patient-record CRUD service and mock feature endpoints of
the EHR backend (`src/backend/server.js`), as a shallow embedding in Lean 4.

JSON values are modelled by `JVal`; a JavaScript object parsed from a JSON
request body is an association list `Obj` (JSON.parse yields unique keys, and
property lookup is modelled by `List.lookup`).  Response bodies (`Body`) are
either a JSON object whose fields may themselves be flat objects or arrays of
flat objects (`JField`), or a JSON array of records.  Each Express route
handler becomes a total Lean function from the request data (and, for the
patient routes, the in-memory `patients` store) to a `Response` and, for the
mutating routes, the store after the call.
-/

namespace EHR

/-- Primitive JSON values appearing in request and response bodies. -/
inductive JVal where
  | num (n : Int)
  | str (s : String)
  | bool (b : Bool)
  | null
deriving DecidableEq, Repr

/-- A flat JSON object (e.g. a patient record or a parsed request body):
an association list from property names to primitive values. -/
abbrev Obj := List (String × JVal)

/-- A field value inside a top-level response object: a primitive, a flat
object (the `patient` field of `{message, patient}`), or an array of flat
objects (the `codes` field of the ICD-10 response). -/
inductive JField where
  | prim (v : JVal)
  | flat (o : List (String × JVal))
  | list (l : List (List (String × JVal)))
deriving DecidableEq, Repr

/-- The body of an HTTP response: a JSON object or a JSON array of records. -/
inductive Body where
  | obj (fields : List (String × JField))
  | arr (records : List (List (String × JVal)))
deriving DecidableEq, Repr

/-- An HTTP response: status code plus JSON body.  `res.json(x)` with no
explicit status is status 200. -/
structure Response where
  status : Nat
  body : Body
deriving DecidableEq, Repr

/-- View a flat record as a response object (Express `res.json(patient)`
serialises the record itself as the top-level object). -/
def asBody (o : Obj) : List (String × JField) :=
  o.map (fun kv => (kv.1, JField.prim kv.2))

/-- The fields of a response body when it is an object (empty for an array).
Used to state which keys a response does or does not carry. -/
def bodyFields : Body → List (String × JField)
  | Body.obj fields => fields
  | Body.arr _ => []

/-- JavaScript spread merge `{...a, ...b}`: keys of `a` keep their position
but take `b`'s value when `b` also has the key; keys of `b` absent from `a`
are appended in `b`'s order. -/
def jsMerge (a b : Obj) : Obj :=
  (a.map (fun kv =>
    match List.lookup kv.1 b with
    | some v => (kv.1, v)
    | none => kv)) ++
  b.filter (fun kv => (List.lookup kv.1 a).isNone)

/-- Hexadecimal digit predicate, for `parseInt`'s `0x` prefix handling. -/
def isHexDigit (c : Char) : Bool :=
  c.isDigit || ('a' ≤ c && c ≤ 'f') || ('A' ≤ c && c ≤ 'F')

/-- Numeric value of a hexadecimal digit. -/
def hexVal (c : Char) : Nat :=
  if c.isDigit then c.toNat - 48
  else if 'a' ≤ c && c ≤ 'f' then c.toNat - 87
  else c.toNat - 55

/-- Accumulate a digit string into a number, most significant digit first. -/
def digitsToNat (base : Nat) (value : Char → Nat) (ds : List Char) : Nat :=
  ds.foldl (fun acc c => acc * base + value c) 0

/-- Parse the longest digit prefix of `cs` (after any sign), as JavaScript
`parseInt` does with the default radix: a `0x`/`0X` prefix switches to
hexadecimal; no parsable digit yields NaN (modelled as `none`). -/
def parseIntFrom (sign : Int) (cs : List Char) : Option Int :=
  match cs with
  | '0' :: x :: rest =>
    if x == 'x' || x == 'X' then
      let ds := rest.takeWhile isHexDigit
      if ds.isEmpty then none
      else some (sign * Int.ofNat (digitsToNat 16 hexVal ds))
    else
      some (sign * Int.ofNat (digitsToNat 10 (fun c => c.toNat - 48)
        (('0' :: x :: rest).takeWhile Char.isDigit)))
  | _ =>
    let ds := cs.takeWhile Char.isDigit
    if ds.isEmpty then none
    else some (sign * Int.ofNat (digitsToNat 10 (fun c => c.toNat - 48) ds))

/-- JavaScript `parseInt(s)`: skip leading whitespace, read an optional sign,
then parse the longest digit prefix; `none` models NaN. -/
def parseIntJS (s : String) : Option Int :=
  match s.data.dropWhile Char.isWhitespace with
  | '+' :: rest => parseIntFrom 1 rest
  | '-' :: rest => parseIntFrom (-1) rest
  | rest => parseIntFrom 1 rest

/-- Strict equality test `p.id === n` where `n` is a `parseInt` result
(`none` models NaN, which is strictly equal to nothing; a missing or
non-numeric `id` property is strictly equal to no number). -/
def idMatches (p : Obj) (n : Option Int) : Bool :=
  match List.lookup "id" p, n with
  | some (JVal.num m), some k => m == k
  | _, _ => false

/-- The seed `patients` array (server.js lines 64–67). -/
def initialPatients : List Obj :=
  [[("id", JVal.num 1), ("name", JVal.str "John Doe"),
    ("age", JVal.num 30), ("diagnosis", JVal.str "Fever")],
   [("id", JVal.num 2), ("name", JVal.str "Jane Doe"),
    ("age", JVal.num 28), ("diagnosis", JVal.str "Cough")]]

/-- `patients.find(p => p.id === parseInt(...))`, with the parsed id. -/
def findPatient (ps : List Obj) (n : Option Int) : Option Obj :=
  ps.find? (fun p => idMatches p n)

/-- `patients.findIndex(p => p.id === id)`, with explicit running index;
`none` models the `-1` result. -/
def findIndexFrom (pred : Obj → Bool) : List Obj → Nat → Option Nat
  | [], _ => none
  | x :: xs, i => if pred x then some i else findIndexFrom pred xs (i + 1)

/-- `patients.findIndex(p => p.id === id)` from index 0, with the parsed id. -/
def findPatientIndex (ps : List Obj) (n : Option Int) : Option Nat :=
  findIndexFrom (fun p => idMatches p n) ps 0

/-- The record built and appended by `POST /patients` (server.js lines 80–84):
`{id: patients.length + 1, ...req.body}` pushed onto the array. -/
def createPatient (ps : List Obj) (body : Obj) : Obj × List Obj :=
  let newPatient := jsMerge [("id", JVal.num ((ps.length : Int) + 1))] body
  (newPatient, ps ++ [newPatient])

/-- The in-place update of `PUT /patients/:id` at a found index
(server.js line 94): `patients[index] = {...patients[index], ...req.body}`. -/
def updatePatient (ps : List Obj) (idx : Nat) (body : Obj) : Obj × List Obj :=
  let updated := jsMerge (ps.getD idx []) body
  (updated, ps.set idx updated)

/-- `GET /patients` (server.js lines 69–71): the full array, status 200. -/
def getPatientsHandler (ps : List Obj) : Response :=
  ⟨200, Body.arr ps⟩

/-- `GET /patients/:id` (server.js lines 73–77): find by
`p.id === parseInt(req.params.id)`; 404 `{error}` when absent. -/
def getPatientHandler (ps : List Obj) (idParam : String) : Response :=
  match findPatient ps (parseIntJS idParam) with
  | none => ⟨404, Body.obj [("error", JField.prim (JVal.str "Patient not found"))]⟩
  | some p => ⟨200, Body.obj (asBody p)⟩

/-- `POST /patients` (server.js lines 79–86): append the new record and
respond 200 `{message, patient}`.  Returns the response and the new store. -/
def postPatientHandler (ps : List Obj) (body : Obj) : Response × List Obj :=
  let c := createPatient ps body
  (⟨200, Body.obj [("message", JField.prim (JVal.str "Patient added")),
                   ("patient", JField.flat c.1)]⟩, c.2)

/-- `PUT /patients/:id` (server.js lines 88–96): locate by
`findIndex(p => p.id === parseInt(req.params.id))`; 404 `{error}` and an
unchanged store when absent, else spread-merge the body over the record in
place and respond 200 `{message, patient}` with the updated record. -/
def putPatientHandler (ps : List Obj) (idParam : String) (body : Obj) :
    Response × List Obj :=
  match findPatientIndex ps (parseIntJS idParam) with
  | none => (⟨404, Body.obj [("error", JField.prim (JVal.str "Patient not found"))]⟩, ps)
  | some idx =>
    let u := updatePatient ps idx body
    (⟨200, Body.obj [("message", JField.prim (JVal.str "Patient updated")),
                     ("patient", JField.flat u.1)]⟩, u.2)

/-- `POST /clinical-notes` (server.js lines 29–47): dispatch on the strict
string equality of `req.body.note_type`; unknown types get 400 `{error}`. -/
def clinicalNotesHandler (body : Obj) : Response :=
  let nt := List.lookup "note_type" body
  if nt == some (JVal.str "soap") then
    ⟨200, Body.obj [("note", JField.prim
      (JVal.str "SOAP note: Subjective, Objective, Assessment, Plan (mock)"))]⟩
  else if nt == some (JVal.str "discharge") then
    ⟨200, Body.obj [("note", JField.prim
      (JVal.str "Discharge Summary generated successfully (mock)"))]⟩
  else if nt == some (JVal.str "radiology") then
    ⟨200, Body.obj [("note", JField.prim
      (JVal.str "Radiology Report generated successfully (mock)"))]⟩
  else
    ⟨400, Body.obj [("error", JField.prim (JVal.str "Invalid note type"))]⟩

/-- `POST /icd10-coding` (server.js lines 52–59): a fixed `{codes: [...]}`
payload regardless of the request body. -/
def icd10CodingHandler (_body : Obj) : Response :=
  ⟨200, Body.obj [("codes", JField.list
    [[("code", JVal.str "A00"), ("description", JVal.str "Cholera")],
     [("code", JVal.str "B20"), ("description", JVal.str "HIV disease")]])]⟩

/-- Stores reachable from the seed array through the patient handlers using
valid bodies.  Per the spec's data model, the caller-supplied `fields` of a
create or update are the attributes *beyond* the identifier, so a valid body
never carries an `"id"` key; the identifier is assigned by the store alone. -/
inductive ReachableV : List Obj → Prop where
  | init : ReachableV initialPatients
  | post (ps : List Obj) (body : Obj) : ReachableV ps →
      List.lookup "id" body = none → ReachableV (postPatientHandler ps body).2
  | put (ps : List Obj) (idParam : String) (body : Obj) : ReachableV ps →
      List.lookup "id" body = none → ReachableV (putPatientHandler ps idParam body).2

/-- Store invariant: the record at position `i` carries identifier `i + 1`.
Holds for the seed array and is preserved by creates and updates with valid
bodies. -/
def StoreInv (ps : List Obj) : Prop :=
  ∀ i : Nat, i < ps.length →
    List.lookup "id" (ps.getD i []) = some (JVal.num ((i : Int) + 1))

/-! ## Lookup lemmas for the spread merge -/

theorem lookup_map_override (a b : Obj) (k : String) :
    List.lookup k (a.map (fun kv =>
      match List.lookup kv.1 b with
      | some v => (kv.1, v)
      | none => kv)) =
    match List.lookup k a with
    | some v => some (match List.lookup k b with | some w => w | none => v)
    | none => none := by
  induction a with
  | nil => rfl
  | cons hd tl ih =>
    obtain ⟨k₁, v₁⟩ := hd
    by_cases hk : k = k₁
    · subst hk
      cases hb : List.lookup k b <;>
        simp [List.lookup_cons, hb]
    · have hbeq : (k == k₁) = false := beq_eq_false_iff_ne.mpr hk
      cases hb : List.lookup k₁ b <;>
        simp [List.lookup_cons, hbeq, hb, ih]

theorem lookup_filter_of_pass (b : Obj) (g : String × JVal → Bool) (k : String)
    (h : ∀ v : JVal, g (k, v) = true) :
    List.lookup k (b.filter g) = List.lookup k b := by
  induction b with
  | nil => rfl
  | cons hd tl ih =>
    obtain ⟨k₁, v₁⟩ := hd
    by_cases hk : k = k₁
    · subst hk
      rw [List.filter_cons]
      simp [h v₁, List.lookup_cons]
    · have hbeq : (k == k₁) = false := beq_eq_false_iff_ne.mpr hk
      rw [List.filter_cons]
      cases hg : g (k₁, v₁) <;> simp [List.lookup_cons, hbeq, ih]

/-- The defining property of the spread merge `{...a, ...b}`: a key present
in `b` takes `b`'s value, any other key keeps its value from `a`. -/
theorem lookup_jsMerge (a b : Obj) (k : String) :
    List.lookup k (jsMerge a b) =
      match List.lookup k b with
      | some v => some v
      | none => List.lookup k a := by
  unfold jsMerge
  rw [List.lookup_append, lookup_map_override]
  cases ha : List.lookup k a with
  | some v => cases hb : List.lookup k b <;> simp
  | none =>
    have h2 := lookup_filter_of_pass b
      (fun kv => (List.lookup kv.1 a).isNone) k (fun v => by simp [ha])
    rw [h2]
    cases hb : List.lookup k b <;> simp

/-! ## Strict-equality id matching -/

theorem idMatches_iff (p : Obj) (n : Option Int) :
    idMatches p n = true ↔
      ∃ m : Int, List.lookup "id" p = some (JVal.num m) ∧ n = some m := by
  unfold idMatches
  cases hl : List.lookup "id" p with
  | none => cases n <;> simp
  | some v =>
    cases v with
    | num m =>
      cases n with
      | none => simp
      | some k =>
        show (m == k) = true ↔ _
        rw [beq_iff_eq]
        constructor
        · intro h
          exact ⟨m, rfl, by rw [h]⟩
        · rintro ⟨m', hm', hk'⟩
          simp at hm' hk'
          omega
    | str s => cases n <;> simp
    | bool b => cases n <;> simp
    | null => cases n <;> simp

theorem idMatches_none (p : Obj) : idMatches p none = false := by
  cases h : idMatches p none
  · rfl
  · obtain ⟨m, _, hm⟩ := (idMatches_iff p none).mp h
    cases hm

/-! ## findIndex lemmas -/

theorem findIndexFrom_eq_none (pred : Obj → Bool) (l : List Obj) (i : Nat)
    (h : ∀ x ∈ l, pred x = false) : findIndexFrom pred l i = none := by
  induction l generalizing i with
  | nil => rfl
  | cons x xs ih =>
    unfold findIndexFrom
    rw [h x (List.mem_cons_self x xs)]
    simpa using ih (i + 1) (fun y hy => h y (List.mem_cons_of_mem x hy))

theorem findIndexFrom_some (pred : Obj → Bool) (l : List Obj) (i j : Nat)
    (h : findIndexFrom pred l i = some j) :
    i ≤ j ∧ j - i < l.length ∧ pred (l.getD (j - i) []) = true := by
  induction l generalizing i with
  | nil => simp [findIndexFrom] at h
  | cons x xs ih =>
    unfold findIndexFrom at h
    by_cases hx : pred x = true
    · rw [hx] at h
      simp at h
      subst h
      simp [hx]
    · rw [Bool.not_eq_true] at hx
      rw [hx] at h
      simp at h
      obtain ⟨h1, h2, h3⟩ := ih (i + 1) h
      have hji : j - i = (j - (i + 1)) + 1 := by omega
      refine ⟨by omega, by simp; omega, ?_⟩
      rw [hji, List.getD_cons_succ]
      exact h3

theorem findPatientIndex_some (ps : List Obj) (n : Option Int) (idx : Nat)
    (h : findPatientIndex ps n = some idx) :
    idx < ps.length ∧ idMatches (ps.getD idx []) n = true := by
  have h2 := findIndexFrom_some (fun p => idMatches p n) ps 0 idx h
  simpa using h2

/-! ## Unfolding lemmas for the handlers -/

theorem createPatient_fst (ps : List Obj) (body : Obj) :
    (createPatient ps body).1 =
      jsMerge [("id", JVal.num ((ps.length : Int) + 1))] body := rfl

theorem createPatient_snd (ps : List Obj) (body : Obj) :
    (createPatient ps body).2 = ps ++ [(createPatient ps body).1] := rfl

theorem updatePatient_fst (ps : List Obj) (idx : Nat) (body : Obj) :
    (updatePatient ps idx body).1 = jsMerge (ps.getD idx []) body := rfl

theorem updatePatient_snd (ps : List Obj) (idx : Nat) (body : Obj) :
    (updatePatient ps idx body).2 =
      ps.set idx (updatePatient ps idx body).1 := rfl

theorem postPatientHandler_snd (ps : List Obj) (body : Obj) :
    (postPatientHandler ps body).2 = (createPatient ps body).2 := rfl

theorem putPatientHandler_of_absent (ps : List Obj) (idParam : String)
    (body : Obj) (h : findPatientIndex ps (parseIntJS idParam) = none) :
    putPatientHandler ps idParam body =
      (⟨404, Body.obj [("error", JField.prim (JVal.str "Patient not found"))]⟩,
       ps) := by
  unfold putPatientHandler
  rw [h]

theorem putPatientHandler_of_found (ps : List Obj) (idParam : String)
    (body : Obj) (idx : Nat)
    (h : findPatientIndex ps (parseIntJS idParam) = some idx) :
    putPatientHandler ps idParam body =
      (⟨200, Body.obj [("message", JField.prim (JVal.str "Patient updated")),
                       ("patient", JField.flat (updatePatient ps idx body).1)]⟩,
       (updatePatient ps idx body).2) := by
  unfold putPatientHandler
  rw [h]

/-! ## The store invariant along reachable stores -/

theorem storeInv_initial : StoreInv initialPatients := by
  intro i h
  have h2 : i < 2 := h
  interval_cases i <;> decide

theorem storeInv_create (ps : List Obj) (body : Obj)
    (hb : List.lookup "id" body = none) (hinv : StoreInv ps) :
    StoreInv (createPatient ps body).2 := by
  intro i h
  rw [createPatient_snd] at h ⊢
  rw [List.length_append, List.length_cons, List.length_nil] at h
  by_cases hi : i < ps.length
  · rw [List.getD_append _ _ _ _ hi]
    exact hinv i hi
  · have hie : i = ps.length := by omega
    subst hie
    rw [List.getD_append_right _ _ _ _ (le_refl _)]
    rw [Nat.sub_self, List.getD_cons_zero]
    rw [createPatient_fst, lookup_jsMerge, hb]
    rfl

theorem storeInv_update (ps : List Obj) (idParam : String) (body : Obj)
    (hb : List.lookup "id" body = none) (hinv : StoreInv ps) :
    StoreInv (putPatientHandler ps idParam body).2 := by
  cases hfind : findPatientIndex ps (parseIntJS idParam) with
  | none =>
    rw [putPatientHandler_of_absent ps idParam body hfind]
    exact hinv
  | some idx =>
    rw [putPatientHandler_of_found ps idParam body idx hfind]
    intro i h
    rw [updatePatient_snd] at h ⊢
    rw [List.length_set] at h
    by_cases hi : i = idx
    · subst hi
      rw [List.getD_eq_getElem?_getD, List.getElem?_set_eq_of_lt _ h]
      rw [Option.getD_some]
      rw [updatePatient_fst, lookup_jsMerge, hb]
      exact hinv i h
    · rw [List.getD_eq_getElem?_getD,
        List.getElem?_set_ne (fun he => hi he.symm),
        ← List.getD_eq_getElem?_getD]
      exact hinv i h

theorem reachableV_storeInv (ps : List Obj) (h : ReachableV ps) :
    StoreInv ps := by
  induction h with
  | init => exact storeInv_initial
  | post ps body _ hb ih => exact storeInv_create ps body hb ih
  | put ps idParam body _ hb ih => exact storeInv_update ps idParam body hb ih

/-! ## Claims -/

/-- C1, counterexample: the claim says `PUT /patients/{id}` leaves the stored
record's identifier unchanged *regardless of the keys in the body*, but the
handler spreads the body over the old record, so a body carrying an `"id"`
key overwrites the identifier: after `PUT /patients/1 {id: 99}` the stored
record's id is 99, not 1. -/
theorem put_id_overridden_cex :
    List.lookup "id"
        ((putPatientHandler initialPatients "1" [("id", JVal.num 99)]).2.getD 0 [])
      = some (JVal.num 99) ∧
    List.lookup "id"
        ((putPatientHandler initialPatients "1" [("id", JVal.num 99)]).2.getD 0 [])
      ≠ some (JVal.num 1) :=
  ⟨by decide, by decide⟩

/-- C1, amended: for every record present in the store and every update body
that does not itself carry an `"id"` key, `PUT /patients/{id}` leaves the
stored record's identifier unchanged, and that identifier equals the
(parsed) requested id. -/
theorem put_preserves_id_of_no_id_key (ps : List Obj) (idParam : String)
    (body : Obj) (idx : Nat)
    (hfind : findPatientIndex ps (parseIntJS idParam) = some idx)
    (hb : List.lookup "id" body = none) :
    List.lookup "id" ((putPatientHandler ps idParam body).2.getD idx [])
        = List.lookup "id" (ps.getD idx []) ∧
    ∃ n : Int, parseIntJS idParam = some n ∧
      List.lookup "id" (ps.getD idx []) = some (JVal.num n) := by
  obtain ⟨hlt, hmatch⟩ := findPatientIndex_some ps (parseIntJS idParam) idx hfind
  constructor
  · rw [putPatientHandler_of_found ps idParam body idx hfind]
    rw [updatePatient_snd]
    rw [List.getD_eq_getElem?_getD, List.getElem?_set_eq_of_lt _ hlt]
    rw [Option.getD_some]
    rw [updatePatient_fst, lookup_jsMerge, hb]
  · obtain ⟨m, hm, hn⟩ := (idMatches_iff _ _).mp hmatch
    exact ⟨m, hn, hm⟩

/-- Witness for the amended C1 at a concrete input: updating patient 2 with
`{age: 29}` keeps its identifier, and that identifier is the requested 2. -/
theorem put_preserves_id_of_no_id_key_witness :
    List.lookup "id"
        ((putPatientHandler initialPatients "2" [("age", JVal.num 29)]).2.getD 1 [])
      = List.lookup "id" (initialPatients.getD 1 []) ∧
    ∃ n : Int, parseIntJS "2" = some n ∧
      List.lookup "id" (initialPatients.getD 1 []) = some (JVal.num n) :=
  put_preserves_id_of_no_id_key initialPatients "2" [("age", JVal.num 29)] 1
    (by decide) rfl

/-- C2: on a store reachable with valid bodies (fields beyond the identifier,
i.e. no `"id"` key), `POST /patients` assigns the new record the identifier
`length + 1`, one greater than the current record count, and every record
already in the store carries a strictly smaller identifier. -/
theorem create_id_exceeds_existing (ps : List Obj) (body : Obj)
    (hps : ReachableV ps) (hb : List.lookup "id" body = none) :
    List.lookup "id" (createPatient ps body).1
        = some (JVal.num ((ps.length : Int) + 1)) ∧
    ∀ i : Nat, i < ps.length → ∃ m : Int,
      List.lookup "id" (ps.getD i []) = some (JVal.num m) ∧
      m < (ps.length : Int) + 1 := by
  constructor
  · rw [createPatient_fst, lookup_jsMerge, hb]
    rfl
  · intro i h
    exact ⟨(i : Int) + 1, reachableV_storeInv ps hps i h, by omega⟩

/-- Witness for C2: creating `{name: "Bob"}` on the seed store assigns
identifier 3 and both seed identifiers are smaller. -/
theorem create_id_exceeds_existing_witness :
    List.lookup "id" (createPatient initialPatients [("name", JVal.str "Bob")]).1
        = some (JVal.num ((initialPatients.length : Int) + 1)) ∧
    ∀ i : Nat, i < initialPatients.length → ∃ m : Int,
      List.lookup "id" (initialPatients.getD i []) = some (JVal.num m) ∧
      m < (initialPatients.length : Int) + 1 :=
  create_id_exceeds_existing initialPatients [("name", JVal.str "Bob")]
    ReachableV.init rfl

/-- C3: when the requested id is present, `PUT /patients/{id}` responds 200
with `{message, patient}` carrying the merged record, stores that same merged
record at the found index, and the merge is a shallow merge: every key of the
body takes the body's value, every other key keeps the old record's value. -/
theorem put_shallow_merges (ps : List Obj) (idParam : String) (body : Obj)
    (idx : Nat)
    (hfind : findPatientIndex ps (parseIntJS idParam) = some idx) :
    ∃ merged : Obj,
      (putPatientHandler ps idParam body).1 =
        ⟨200, Body.obj [("message", JField.prim (JVal.str "Patient updated")),
                        ("patient", JField.flat merged)]⟩ ∧
      (putPatientHandler ps idParam body).2 = ps.set idx merged ∧
      (∀ k v, List.lookup k body = some v → List.lookup k merged = some v) ∧
      (∀ k, List.lookup k body = none →
        List.lookup k merged = List.lookup k (ps.getD idx [])) := by
  refine ⟨(updatePatient ps idx body).1, ?_, ?_, ?_, ?_⟩
  · rw [putPatientHandler_of_found ps idParam body idx hfind]
  · rw [putPatientHandler_of_found ps idParam body idx hfind, updatePatient_snd]
  · intro k v hk
    rw [updatePatient_fst, lookup_jsMerge, hk]
  · intro k hk
    rw [updatePatient_fst, lookup_jsMerge, hk]

/-- Witness for C3: `PUT /patients/1 {age: 31}` on the seed store. -/
theorem put_shallow_merges_witness :
    ∃ merged : Obj,
      (putPatientHandler initialPatients "1" [("age", JVal.num 31)]).1 =
        ⟨200, Body.obj [("message", JField.prim (JVal.str "Patient updated")),
                        ("patient", JField.flat merged)]⟩ ∧
      (putPatientHandler initialPatients "1" [("age", JVal.num 31)]).2 =
        initialPatients.set 0 merged ∧
      (∀ k v, List.lookup k [("age", JVal.num 31)] = some v →
        List.lookup k merged = some v) ∧
      (∀ k, List.lookup k [("age", JVal.num 31)] = none →
        List.lookup k merged = List.lookup k (initialPatients.getD 0 [])) :=
  put_shallow_merges initialPatients "1" [("age", JVal.num 31)] 0 (by decide)

/-- C4: when no stored record's id strictly equals the parsed requested id,
`GET /patients/{id}` and `PUT /patients/{id}` both respond 404 with
`{error: "Patient not found"}`, and the PUT leaves the store untouched. -/
theorem missing_id_not_found (ps : List Obj) (idParam : String) (body : Obj)
    (habs : ∀ p ∈ ps, idMatches p (parseIntJS idParam) = false) :
    getPatientHandler ps idParam =
      ⟨404, Body.obj [("error", JField.prim (JVal.str "Patient not found"))]⟩ ∧
    (putPatientHandler ps idParam body).1 =
      ⟨404, Body.obj [("error", JField.prim (JVal.str "Patient not found"))]⟩ ∧
    (putPatientHandler ps idParam body).2 = ps := by
  have hfind : ps.find? (fun p => idMatches p (parseIntJS idParam)) = none := by
    rw [List.find?_eq_none]
    intro x hx
    simp [habs x hx]
  have hidx : findPatientIndex ps (parseIntJS idParam) = none :=
    findIndexFrom_eq_none _ ps 0 habs
  refine ⟨?_, ?_, ?_⟩
  · unfold getPatientHandler findPatient
    rw [hfind]
  · rw [putPatientHandler_of_absent ps idParam body hidx]
  · rw [putPatientHandler_of_absent ps idParam body hidx]

/-- Witness for C4: id 99 is absent from the seed store. -/
theorem missing_id_not_found_witness :
    getPatientHandler initialPatients "99" =
      ⟨404, Body.obj [("error", JField.prim (JVal.str "Patient not found"))]⟩ ∧
    (putPatientHandler initialPatients "99" [("age", JVal.num 50)]).1 =
      ⟨404, Body.obj [("error", JField.prim (JVal.str "Patient not found"))]⟩ ∧
    (putPatientHandler initialPatients "99" [("age", JVal.num 50)]).2 =
      initialPatients :=
  missing_id_not_found initialPatients "99" [("age", JVal.num 50)] (by decide)

/-- C5, round-trip: on a store reachable with valid bodies, the record
returned by `POST /patients` carries a numeric identifier, and looking that
identifier up (the find of `GET /patients/{id}`) in the post-create store
returns exactly the record the create returned. -/
theorem create_get_roundtrip (ps : List Obj) (body : Obj)
    (hps : ReachableV ps) (hb : List.lookup "id" body = none) :
    ∃ n : Int,
      List.lookup "id" (createPatient ps body).1 = some (JVal.num n) ∧
      findPatient (createPatient ps body).2 (some n)
        = some (createPatient ps body).1 := by
  have hinv := reachableV_storeInv ps hps
  have hid : List.lookup "id" (createPatient ps body).1
      = some (JVal.num ((ps.length : Int) + 1)) := by
    rw [createPatient_fst, lookup_jsMerge, hb]
    rfl
  refine ⟨(ps.length : Int) + 1, hid, ?_⟩
  unfold findPatient
  rw [createPatient_snd, List.find?_append]
  have hleft : ps.find? (fun p => idMatches p (some ((ps.length : Int) + 1)))
      = none := by
    rw [List.find?_eq_none]
    intro x hx hmx
    obtain ⟨m, hm, hsome⟩ := (idMatches_iff _ _).mp hmx
    obtain ⟨i, hilt, hx_eq⟩ := List.mem_iff_getElem.mp hx
    have hgd : ps.getD i [] = x := by
      rw [List.getD_eq_getElem?_getD, List.getElem?_eq_getElem hilt]
      simpa using hx_eq
    have hxi := hinv i hilt
    rw [hgd, hm] at hxi
    have h1 : m = (i : Int) + 1 := by simpa using hxi
    have h2 : ((ps.length : Int) + 1) = m := by simpa using hsome
    omega
  rw [hleft, Option.none_or]
  rw [List.find?_cons_of_pos]
  exact (idMatches_iff _ _).mpr ⟨(ps.length : Int) + 1, hid, rfl⟩

/-- Witness for C5: creating `{name: "Ann"}` on the seed store and reading
back its identifier returns the very record the create returned. -/
theorem create_get_roundtrip_witness :
    ∃ n : Int,
      List.lookup "id" (createPatient initialPatients [("name", JVal.str "Ann")]).1
        = some (JVal.num n) ∧
      findPatient (createPatient initialPatients [("name", JVal.str "Ann")]).2
          (some n)
        = some (createPatient initialPatients [("name", JVal.str "Ann")]).1 :=
  create_get_roundtrip initialPatients [("name", JVal.str "Ann")]
    ReachableV.init rfl

/-- C6, counterexample: the claim says malformed (non-numeric) path input
always yields not-found, but JavaScript `parseInt` keeps the numeric prefix:
`GET /patients/2abc` parses to 2 and returns the seed record with id 2
instead of the not-found response. -/
theorem get_numeric_prefix_cex :
    parseIntJS "2abc" = some 2 ∧
    getPatientHandler initialPatients "2abc" =
      ⟨200, Body.obj (asBody (initialPatients.getD 1 []))⟩ ∧
    getPatientHandler initialPatients "2abc" ≠
      Response.mk 404
        (Body.obj [("error", JField.prim (JVal.str "Patient not found"))]) :=
  ⟨by decide, by decide, by decide⟩

/-- C6, amended: `GET /patients/{id}` is total on every path input — it
returns either the not-found response or a stored record whose id strictly
equals the parsed input — and any input with no parsable integer prefix
(`parseInt` NaN) always yields not-found; an input with a numeric prefix is
treated as that integer. -/
theorem get_total_never_crashes (ps : List Obj) (idParam : String) :
    (parseIntJS idParam = none →
      getPatientHandler ps idParam =
        ⟨404, Body.obj [("error", JField.prim (JVal.str "Patient not found"))]⟩) ∧
    (getPatientHandler ps idParam =
        ⟨404, Body.obj [("error", JField.prim (JVal.str "Patient not found"))]⟩ ∨
      ∃ p, p ∈ ps ∧ idMatches p (parseIntJS idParam) = true ∧
        getPatientHandler ps idParam = ⟨200, Body.obj (asBody p)⟩) := by
  constructor
  · intro hnan
    unfold getPatientHandler findPatient
    rw [hnan]
    have hnone : ps.find? (fun p => idMatches p none) = none := by
      rw [List.find?_eq_none]
      intro x hx
      simp [idMatches_none]
    rw [hnone]
  · cases hfind : ps.find? (fun p => idMatches p (parseIntJS idParam)) with
    | none =>
      left
      unfold getPatientHandler findPatient
      rw [hfind]
    | some p =>
      right
      refine ⟨p, List.mem_of_find?_eq_some hfind, ?_, ?_⟩
      · have := List.find?_some hfind
        simpa using this
      · unfold getPatientHandler findPatient
        rw [hfind]

/-- Witness for the amended C6: the fully non-numeric input `"abc"` parses to
NaN and yields the not-found response on the seed store. -/
theorem get_total_never_crashes_witness :
    getPatientHandler initialPatients "abc" =
      ⟨404, Body.obj [("error", JField.prim (JVal.str "Patient not found"))]⟩ :=
  (get_total_never_crashes initialPatients "abc").1 (by decide)

/-- C7: the claim (and the frontend caller, which reads `result.success` and
`result.content`) requires the success body of `POST /clinical-notes` to be
`{success, content}`, but for `note_type = "soap"` the handler responds 200
with `{note}` and carries neither a `success` nor a `content` key; the
unrecognized-type branch does respond 400 `{error: "Invalid note type"}` as
claimed. -/
theorem clinical_notes_shape_mismatch :
    clinicalNotesHandler [("note_type", JVal.str "soap")] =
      ⟨200, Body.obj [("note", JField.prim
        (JVal.str "SOAP note: Subjective, Objective, Assessment, Plan (mock)"))]⟩ ∧
    List.lookup "success"
      (bodyFields (clinicalNotesHandler [("note_type", JVal.str "soap")]).body)
      = none ∧
    List.lookup "content"
      (bodyFields (clinicalNotesHandler [("note_type", JVal.str "soap")]).body)
      = none ∧
    clinicalNotesHandler [("note_type", JVal.str "unknown")] =
      ⟨400, Body.obj [("error", JField.prim (JVal.str "Invalid note type"))]⟩ :=
  ⟨by decide, by decide, by decide, by decide⟩

/-- C8: the claim (and the frontend caller, which reads `result.success`,
`result.suggested_codes` and `result.total_suggestions`) requires the
`POST /icd10-coding` body to be `{success, suggested_codes, total_suggestions}`,
but for every request body the handler responds with the fixed `{codes: [...]}`
object, which carries none of those keys. -/
theorem icd10_shape_mismatch (body : Obj) :
    icd10CodingHandler body =
      ⟨200, Body.obj [("codes", JField.list
        [[("code", JVal.str "A00"), ("description", JVal.str "Cholera")],
         [("code", JVal.str "B20"), ("description", JVal.str "HIV disease")]])]⟩ ∧
    List.lookup "success" (bodyFields (icd10CodingHandler body).body) = none ∧
    List.lookup "suggested_codes"
      (bodyFields (icd10CodingHandler body).body) = none ∧
    List.lookup "total_suggestions"
      (bodyFields (icd10CodingHandler body).body) = none :=
  ⟨rfl, rfl, rfl, rfl⟩

/-- Witness for C8 at the empty request body. -/
theorem icd10_shape_mismatch_witness :
    icd10CodingHandler [] =
      ⟨200, Body.obj [("codes", JField.list
        [[("code", JVal.str "A00"), ("description", JVal.str "Cholera")],
         [("code", JVal.str "B20"), ("description", JVal.str "HIV disease")]])]⟩ ∧
    List.lookup "success" (bodyFields (icd10CodingHandler []).body) = none ∧
    List.lookup "suggested_codes"
      (bodyFields (icd10CodingHandler []).body) = none ∧
    List.lookup "total_suggestions"
      (bodyFields (icd10CodingHandler []).body) = none :=
  icd10_shape_mismatch []

/-- C9: when the `POST /patients` body itself carries an `"id"` key, the
spread of the body after the assigned id makes the created record's
identifier equal the body's value, and the record is appended as-is — so a
caller can create a record duplicating an existing identifier. -/
theorem post_body_id_overrides (ps : List Obj) (body : Obj) (v : JVal)
    (hv : List.lookup "id" body = some v) :
    List.lookup "id" (createPatient ps body).1 = some v ∧
    (createPatient ps body).2 = ps ++ [(createPatient ps body).1] := by
  constructor
  · rw [createPatient_fst, lookup_jsMerge, hv]
  · exact createPatient_snd ps body

/-- Witness for C9: posting `{id: 1, name: "Dup"}` to the seed store creates
a second record with identifier 1, duplicating the seed record's id. -/
theorem post_body_id_overrides_witness :
    List.lookup "id"
      (createPatient initialPatients
        [("id", JVal.num 1), ("name", JVal.str "Dup")]).1 = some (JVal.num 1) ∧
    (createPatient initialPatients
        [("id", JVal.num 1), ("name", JVal.str "Dup")]).2 =
      initialPatients ++
        [(createPatient initialPatients
          [("id", JVal.num 1), ("name", JVal.str "Dup")]).1] :=
  post_body_id_overrides initialPatients
    [("id", JVal.num 1), ("name", JVal.str "Dup")] (JVal.num 1) rfl

/-- C10: a fresh process starts with exactly the two seed records
(John Doe, id 1; Jane Doe, id 2), the first `GET /patients` returns them
with status 200, and the first create with a valid body is assigned
identifier 3, not 1. -/
theorem initial_store_and_first_create :
    initialPatients =
      [[("id", JVal.num 1), ("name", JVal.str "John Doe"),
        ("age", JVal.num 30), ("diagnosis", JVal.str "Fever")],
       [("id", JVal.num 2), ("name", JVal.str "Jane Doe"),
        ("age", JVal.num 28), ("diagnosis", JVal.str "Cough")]] ∧
    getPatientsHandler initialPatients = ⟨200, Body.arr initialPatients⟩ ∧
    ∀ body : Obj, List.lookup "id" body = none →
      List.lookup "id" (createPatient initialPatients body).1
        = some (JVal.num 3) := by
  refine ⟨rfl, rfl, ?_⟩
  intro body hb
  rw [createPatient_fst, lookup_jsMerge, hb]
  decide

/-- Witness for C10: the first create on the fresh store, with body
`{name: "New"}`, is assigned identifier 3. -/
theorem initial_store_and_first_create_witness :
    List.lookup "id"
      (createPatient initialPatients [("name", JVal.str "New")]).1
      = some (JVal.num 3) :=
  initial_store_and_first_create.2.2 [("name", JVal.str "New")] rfl

end EHR
